import Mathlib

/-!
Verification of the route-emitter core against its natural-language
specification.

The development shallowly embeds three parts of the repository:

1. `routehandlers.NATSHandler` (the event handler): `HandleEvent`, `Emit`,
   `Sync`, `RefreshDesired`, `ShouldRefreshDesired`, `emitMessages` and the
   six per-event-kind helpers.  The `routingtable.RoutingTable`
   implementation is not part of the given sources, so the handler is
   parameterised over an abstract interface `RoutingTable T` exposing
   exactly the operations the handler calls; a free "trace" instantiation
   (`traceTable`) records the sequence of mutator calls and is used for
   concrete evaluations.
2. The `Syncer` greet/interval protocol.  Its implementation is not under
   the given sources (only its test suite is), so it is modelled from the
   specification, as marked on the definitions.
3. `config.NewRouteEmitterConfig` / `config.DefaultRouteEmitterConfig`.

Modelling conventions: Go pointer mutation of the handler's fields becomes
explicit state passing; emitter side effects become an output list of
`Emission` values; emitter errors are supplied by an oracle environment
`EmitEnv`; session/debug/progress logging and the global metric counters
are elided, while the error logs and the skip-emit info log that the
specification talks about are kept; Go `time.Duration` values become
nanosecond counts (`Nat`).  Go map iteration order is not specified by the
Go language, so iteration over the `cachedEvents` map is modelled by
quantifying over an arbitrary permutation of the map's entries.
-/

namespace RouteEmitter

/-- Scheduling info of a desired LRP (opaque to the handler, which only
forwards it to the routing table). -/
structure DesiredLRPSchedulingInfo where
  processGuid : String
  deriving DecidableEq, Repr

/-- The state of an actual LRP (`models.ActualLRPState*`). -/
inductive ActualLRPState where
  | Unclaimed
  | Claimed
  | Running
  | Crashed
  deriving DecidableEq, Repr

/-- An actual LRP record; the handler only inspects its `state`. -/
structure ActualLRP where
  instanceGuid : String
  state : ActualLRPState
  netInfo : String
  deriving DecidableEq, Repr

/-- Routing info of an actual LRP (`endpoint.ActualLRPRoutingInfo`). -/
structure ActualLRPRoutingInfo where
  actualLRP : ActualLRP
  evacuating : Bool
  deriving DecidableEq, Repr

/-- A NATS registry message (opaque payload for the handler). -/
structure RegistryMessage where
  host : String
  port : Nat
  uris : List String
  deriving DecidableEq, Repr

/-- The delta value `routingtable.MessagesToEmit`. -/
structure MessagesToEmit where
  registrationMessages : List RegistryMessage := []
  unregistrationMessages : List RegistryMessage := []
  deriving DecidableEq, Repr

/-- The delta value `routingtable.TCPRouteMappings` (opaque payload). -/
structure TCPRouteMappings where
  mappings : List String := []
  deriving DecidableEq, Repr

/-- A `models.DomainSet`, modelled as the list of fresh domains. -/
abbrev DomainSet := List String

/-- The discriminated union of cluster events dispatched by
`HandleEvent` (`models.Event`); `unrecognized` stands for every event type
outside the six handled cases and carries the value of `EventType()`. -/
inductive Event where
  | desiredLRPCreated (desiredLrp : DesiredLRPSchedulingInfo)
  | desiredLRPChanged (before after : DesiredLRPSchedulingInfo)
  | desiredLRPRemoved (desiredLrp : DesiredLRPSchedulingInfo)
  | actualLRPCreated (actualLrpGroup : ActualLRPRoutingInfo)
  | actualLRPChanged (before after : ActualLRPRoutingInfo)
  | actualLRPRemoved (actualLrpGroup : ActualLRPRoutingInfo)
  | unrecognized (eventType : String)
  deriving DecidableEq, Repr

/-- The interface of `routingtable.RoutingTable` as used by the handler:
each mutator returns the new table state together with the delta
(`TCPRouteMappings`, `MessagesToEmit`); `newTable` is the result of
`routingtable.NewRoutingTable`.  `swap t newT domains` returns the state
of the receiver `t` after `t.Swap(newT, domains)` plus the delta. -/
structure RoutingTable (T : Type) where
  newTable : T
  setRoutes : T → Option DesiredLRPSchedulingInfo → DesiredLRPSchedulingInfo →
    T × TCPRouteMappings × MessagesToEmit
  removeRoutes : T → DesiredLRPSchedulingInfo → T × TCPRouteMappings × MessagesToEmit
  addEndpoint : T → ActualLRPRoutingInfo → T × TCPRouteMappings × MessagesToEmit
  removeEndpoint : T → ActualLRPRoutingInfo → T × TCPRouteMappings × MessagesToEmit
  swap : T → T → DomainSet → T × TCPRouteMappings × MessagesToEmit
  emit : T → TCPRouteMappings × MessagesToEmit
  hasExternalRoutes : T → ActualLRPRoutingInfo → Bool
  httpEndpointCount : T → Int
  tcpRouteCount : T → Int

/-- An observable delivery to one of the two emitters: the argument of a
`natsEmitter.Emit` or `routingAPIEmitter.Emit` call. -/
inductive Emission where
  | nats (messages : MessagesToEmit)
  | routingAPI (mappings : TCPRouteMappings)
  deriving DecidableEq, Repr

/-- A log record (only the entries relevant to the verified claims are
modelled). -/
inductive LogEntry where
  | info (message : String)
  | error (message : String) (data : List (String × String))
  deriving DecidableEq, Repr

/-- Oracle environment supplying the error results of the two emitters'
`Emit` calls; `none` means the call succeeded. -/
structure EmitEnv where
  natsEmitErr : MessagesToEmit → Option String
  routingAPIEmitErr : TCPRouteMappings → Option String

/-- The state of `routehandlers.NATSHandler`; the two emitter fields keep
only their nil-ness (`true` = emitter present, `false` = nil). -/
structure NATSHandler (T : Type) where
  routingTable : T
  natsEmitter : Bool
  routingAPIEmitter : Bool
  localMode : Bool
  deriving DecidableEq, Repr

/-- `routehandlers.NewNATSHandler`. -/
def NewNATSHandler {T : Type} (routingTable : T)
    (natsEmitter routingAPIEmitter localMode : Bool) : NATSHandler T :=
  { routingTable := routingTable
    natsEmitter := natsEmitter
    routingAPIEmitter := routingAPIEmitter
    localMode := localMode }

/-- `NATSHandler.emitMessages` (source lines 257-276): sends the message
delta to the NATS emitter when present (logging a failure and carrying
on), otherwise logs that the emit is skipped; then independently sends the
route mappings to the routing-API emitter when present, again logging a
failure.  Returns the emissions and log entries in program order. -/
def emitMessages {T : Type} (handler : NATSHandler T) (env : EmitEnv)
    (messagesToEmit : MessagesToEmit) (routeMappings : TCPRouteMappings) :
    List Emission × List LogEntry :=
  let natsPart : List Emission × List LogEntry :=
    if handler.natsEmitter then
      match env.natsEmitErr messagesToEmit with
      | some e => ([Emission.nats messagesToEmit],
          [LogEntry.error "failed-to-emit-http-routes" [("err", e)]])
      | none => ([Emission.nats messagesToEmit], [])
    else
      ([], [LogEntry.info "no-emitter-configured-skipping-emit-messages"])
  let apiPart : List Emission × List LogEntry :=
    if handler.routingAPIEmitter then
      match env.routingAPIEmitErr routeMappings with
      | some e => ([Emission.routingAPI routeMappings],
          [LogEntry.error "failed-to-emit-http-routes" [("err", e)]])
      | none => ([Emission.routingAPI routeMappings], [])
    else
      ([], [])
  (natsPart.1 ++ apiPart.1, natsPart.2 ++ apiPart.2)

/-- Result of a handler operation: the new handler state plus the
emissions and log entries it produced, in order. -/
structure HandlerResult (T : Type) where
  handler : NATSHandler T
  emissions : List Emission
  logs : List LogEntry
  deriving Repr

/-- `NATSHandler.handleDesiredCreate` (lines 173-179). -/
def handleDesiredCreate {T : Type} (impl : RoutingTable T) (handler : NATSHandler T)
    (env : EmitEnv) (desiredLRP : DesiredLRPSchedulingInfo) : HandlerResult T :=
  let r := impl.setRoutes handler.routingTable none desiredLRP
  let handler1 : NATSHandler T := { handler with routingTable := r.1 }
  let e := emitMessages handler1 env r.2.2 r.2.1
  { handler := handler1, emissions := e.1, logs := e.2 }

/-- `NATSHandler.handleDesiredUpdate` (lines 181-191). -/
def handleDesiredUpdate {T : Type} (impl : RoutingTable T) (handler : NATSHandler T)
    (env : EmitEnv) (before after : DesiredLRPSchedulingInfo) : HandlerResult T :=
  let r := impl.setRoutes handler.routingTable (some before) after
  let handler1 : NATSHandler T := { handler with routingTable := r.1 }
  let e := emitMessages handler1 env r.2.2 r.2.1
  { handler := handler1, emissions := e.1, logs := e.2 }

/-- `NATSHandler.handleDesiredDelete` (lines 193-199). -/
def handleDesiredDelete {T : Type} (impl : RoutingTable T) (handler : NATSHandler T)
    (env : EmitEnv) (schedulingInfo : DesiredLRPSchedulingInfo) : HandlerResult T :=
  let r := impl.removeRoutes handler.routingTable schedulingInfo
  let handler1 : NATSHandler T := { handler with routingTable := r.1 }
  let e := emitMessages handler1 env r.2.2 r.2.1
  { handler := handler1, emissions := e.1, logs := e.2 }

/-- `NATSHandler.handleActualCreate` (lines 201-210): adds the endpoint
and emits only when the record's state is Running. -/
def handleActualCreate {T : Type} (impl : RoutingTable T) (handler : NATSHandler T)
    (env : EmitEnv) (actualLRPInfo : ActualLRPRoutingInfo) : HandlerResult T :=
  if actualLRPInfo.actualLRP.state = ActualLRPState.Running then
    let r := impl.addEndpoint handler.routingTable actualLRPInfo
    let handler1 : NATSHandler T := { handler with routingTable := r.1 }
    let e := emitMessages handler1 env r.2.2 r.2.1
    { handler := handler1, emissions := e.1, logs := e.2 }
  else
    { handler := handler, emissions := [], logs := [] }

/-- `NATSHandler.handleActualUpdate` (lines 212-233): adds the after
endpoint when its state is Running; otherwise removes the before endpoint
when the before state was Running; otherwise leaves the table untouched
and passes the zero-valued deltas to `emitMessages`. -/
def handleActualUpdate {T : Type} (impl : RoutingTable T) (handler : NATSHandler T)
    (env : EmitEnv) (before after : ActualLRPRoutingInfo) : HandlerResult T :=
  let r : T × TCPRouteMappings × MessagesToEmit :=
    if after.actualLRP.state = ActualLRPState.Running then
      impl.addEndpoint handler.routingTable after
    else if after.actualLRP.state ≠ ActualLRPState.Running ∧
        before.actualLRP.state = ActualLRPState.Running then
      impl.removeEndpoint handler.routingTable before
    else
      (handler.routingTable, {}, {})
  let handler1 : NATSHandler T := { handler with routingTable := r.1 }
  let e := emitMessages handler1 env r.2.2 r.2.1
  { handler := handler1, emissions := e.1, logs := e.2 }

/-- `NATSHandler.handleActualDelete` (lines 235-244): removes the endpoint
and emits only when the record's state is Running. -/
def handleActualDelete {T : Type} (impl : RoutingTable T) (handler : NATSHandler T)
    (env : EmitEnv) (actualLRPInfo : ActualLRPRoutingInfo) : HandlerResult T :=
  if actualLRPInfo.actualLRP.state = ActualLRPState.Running then
    let r := impl.removeEndpoint handler.routingTable actualLRPInfo
    let handler1 : NATSHandler T := { handler with routingTable := r.1 }
    let e := emitMessages handler1 env r.2.2 r.2.1
    { handler := handler1, emissions := e.1, logs := e.2 }
  else
    { handler := handler, emissions := [], logs := [] }

/-- `NATSHandler.HandleEvent` (lines 45-70): dispatch on the event kind;
the default branch logs the unrecognized event type as an error and does
nothing else. -/
def HandleEvent {T : Type} (impl : RoutingTable T) (handler : NATSHandler T)
    (env : EmitEnv) (event : Event) : HandlerResult T :=
  match event with
  | Event.desiredLRPCreated d => handleDesiredCreate impl handler env d
  | Event.desiredLRPChanged b a => handleDesiredUpdate impl handler env b a
  | Event.desiredLRPRemoved d => handleDesiredDelete impl handler env d
  | Event.actualLRPCreated a => handleActualCreate impl handler env a
  | Event.actualLRPChanged b a => handleActualUpdate impl handler env b a
  | Event.actualLRPRemoved a => handleActualDelete impl handler env a
  | Event.unrecognized t =>
      { handler := handler
        emissions := []
        logs := [LogEntry.error "did-not-handle-unrecognizable-event" [("event-type", t)]] }

/-- `NATSHandler.Emit` (lines 72-96): queries the table's full dump and
sends it to each emitter that is present, logging (and otherwise
ignoring) a failure of either; the metric sends of lines 91-95 are
elided. -/
def Emit {T : Type} (impl : RoutingTable T) (handler : NATSHandler T)
    (env : EmitEnv) : List Emission × List LogEntry :=
  let r := impl.emit handler.routingTable
  let natsPart : List Emission × List LogEntry :=
    if handler.natsEmitter then
      match env.natsEmitErr r.2 with
      | some e => ([Emission.nats r.2],
          [LogEntry.error "failed-to-emit-nats-routes" [("err", e)]])
      | none => ([Emission.nats r.2], [])
    else
      ([], [])
  let apiPart : List Emission × List LogEntry :=
    if handler.routingAPIEmitter then
      match env.routingAPIEmitErr r.1 with
      | some e => ([Emission.routingAPI r.1],
          [LogEntry.error "failed-to-emit-tcp-routes" [("err", e)]])
      | none => ([Emission.routingAPI r.1], [])
    else
      ([], [])
  (natsPart.1 ++ apiPart.1, natsPart.2 ++ apiPart.2)

/-- `NATSHandler.RefreshDesired` (lines 162-167). -/
def RefreshDesired {T : Type} (impl : RoutingTable T) (handler : NATSHandler T)
    (env : EmitEnv) (desiredInfo : List DesiredLRPSchedulingInfo) : HandlerResult T :=
  desiredInfo.foldl
    (fun acc desiredLRP =>
      let r := impl.setRoutes acc.handler.routingTable none desiredLRP
      let handler1 : NATSHandler T := { acc.handler with routingTable := r.1 }
      let e := emitMessages handler1 env r.2.2 r.2.1
      { handler := handler1, emissions := acc.emissions ++ e.1, logs := acc.logs ++ e.2 })
    { handler := handler, emissions := [], logs := [] }

/-- `NATSHandler.ShouldRefreshDesired` (lines 169-171): the negation of
the table's `HasExternalRoutes`; a pure query that returns a Bool and
touches no state. -/
def ShouldRefreshDesired {T : Type} (impl : RoutingTable T) (handler : NATSHandler T)
    (actual : ActualLRPRoutingInfo) : Bool :=
  !(impl.hasExternalRoutes handler.routingTable actual)

/-- The first phase of `NATSHandler.Sync` (lines 109-117): build a fresh
table with `SetRoutes(nil, lrp)` for each desired entry in order, then
`AddEndpoint(lrp)` for each actual entry in order, discarding the
deltas. -/
def syncBuiltTable {T : Type} (impl : RoutingTable T)
    (desired : List DesiredLRPSchedulingInfo)
    (actuals : List ActualLRPRoutingInfo) : T :=
  actuals.foldl (fun t lrp => (impl.addEndpoint t lrp).1)
    (desired.foldl (fun t lrp => (impl.setRoutes t none lrp).1) impl.newTable)

/-- The state of the handler during the replay window of `Sync` (lines
121-127): the active table points at the newly built table and both
emitter fields are nil. -/
def syncDetachedHandler {T : Type} (handler : NATSHandler T) (t : T) : NATSHandler T :=
  { routingTable := t
    natsEmitter := false
    routingAPIEmitter := false
    localMode := handler.localMode }

/-- One step of the cached-event replay loop of `Sync` (lines 129-131):
handle the event with the current handler state and accumulate outputs. -/
def handleEventAccum {T : Type} (impl : RoutingTable T) (env : EmitEnv)
    (acc : HandlerResult T) (kv : String × Event) : HandlerResult T :=
  let r := HandleEvent impl acc.handler env kv.2
  { handler := r.handler
    emissions := acc.emissions ++ r.emissions
    logs := acc.logs ++ r.logs }

/-- The cached-event replay of `Sync` (lines 129-131), applied to the map
entries in the iteration order `iter` chosen by the Go runtime. -/
def syncReplay {T : Type} (impl : RoutingTable T) (env : EmitEnv)
    (handler : NATSHandler T) (t : T) (iter : List (String × Event)) : HandlerResult T :=
  iter.foldl (handleEventAccum impl env)
    { handler := syncDetachedHandler handler t, emissions := [], logs := [] }

/-- `NATSHandler.Sync` (lines 98-160): build the new table from the
snapshots, detach the emitters and point the handler at the new table,
replay the cached events (in the map's iteration order `iter`), restore
the table and emitters, `Swap` the old table into the (replay-mutated)
new one restricted to `domains`, and emit the resulting delta through the
real emitters.  The local-mode metric sends of lines 150-159 are
elided. -/
def Sync {T : Type} (impl : RoutingTable T) (handler : NATSHandler T)
    (env : EmitEnv) (desired : List DesiredLRPSchedulingInfo)
    (actuals : List ActualLRPRoutingInfo) (domains : DomainSet)
    (iter : List (String × Event)) : HandlerResult T :=
  let newTable := syncBuiltTable impl desired actuals
  let replayed := syncReplay impl env handler newTable iter
  let s := impl.swap handler.routingTable replayed.handler.routingTable domains
  let handler1 : NATSHandler T := { handler with routingTable := s.1 }
  let e := emitMessages handler1 env s.2.2 s.2.1
  { handler := handler1
    emissions := replayed.emissions ++ e.1
    logs := replayed.logs ++ e.2 }

/-- Go map assignment `m[k] = v`: replace the entry for `k` in place when
present, otherwise add a new entry. -/
def goMapInsert (m : List (String × Event)) (k : String) (v : Event) :
    List (String × Event) :=
  if m.any (fun p => p.1 == k) then
    m.map (fun p => if p.1 == k then (k, v) else p)
  else
    m ++ [(k, v)]

/-- The contents of a Go map built by assigning the key/value pairs of
`kvs` in order (later assignments to the same key overwrite earlier
ones). -/
def goMapOfList (kvs : List (String × Event)) : List (String × Event) :=
  kvs.foldl (fun m kv => goMapInsert m kv.1 kv.2) []

/-- An observable routing-table mutator call, for the trace
instantiation. -/
inductive TableOp where
  | setRoutes (before : Option DesiredLRPSchedulingInfo) (after : DesiredLRPSchedulingInfo)
  | removeRoutes (desired : DesiredLRPSchedulingInfo)
  | addEndpoint (actual : ActualLRPRoutingInfo)
  | removeEndpoint (actual : ActualLRPRoutingInfo)
  | swapped (domains : DomainSet)
  deriving DecidableEq, Repr

/-- The free trace instantiation of the table interface: the state is the
list of mutator calls made so far, every delta is empty, and `swap`
adopts the new table's trace.  Used to observe which mutators the handler
invokes. -/
def traceTable : RoutingTable (List TableOp) :=
  { newTable := []
    setRoutes := fun t b a => (t ++ [TableOp.setRoutes b a], {}, {})
    removeRoutes := fun t d => (t ++ [TableOp.removeRoutes d], {}, {})
    addEndpoint := fun t a => (t ++ [TableOp.addEndpoint a], {}, {})
    removeEndpoint := fun t a => (t ++ [TableOp.removeEndpoint a], {}, {})
    swap := fun _t newT domains => (newT ++ [TableOp.swapped domains], {}, {})
    emit := fun _t => ({}, {})
    hasExternalRoutes := fun _t _a => false
    httpEndpointCount := fun _t => 0
    tcpRouteCount := fun _t => 0 }

/-- Modelled from the spec: the Syncer implementation is not among the
given sources (only its test suite is).  Its interval-discovery state:
`interval = none` is the spec's AwaitingInterval state, `interval = some i`
the Intervaled state with announcement interval `i` (seconds). -/
structure SyncerState where
  interval : Option Nat
  deriving DecidableEq, Repr

/-- Modelled from the spec: the inputs the Syncer's dispatch loop reacts
to — task start, a greet-retry cadence tick, a greet reply, a broadcast
on the announcement subject (router.start), a firing of the emit timer,
and a firing of the fixed sync timer. -/
inductive SyncerInput where
  | start
  | greetRetryTick
  | greetReply (minimumInterval pruneThreshold : Nat)
  | routerStart (minimumInterval pruneThreshold : Nat)
  | emitTick
  | syncTick
  deriving DecidableEq, Repr

/-- Modelled from the spec: the Syncer's observable outputs — publishing
a greet request on the well-known subject, and delivering a signal on the
Emit or Sync channel. -/
inductive SyncerOutput where
  | publishGreet
  | emitSignal
  | syncSignal
  deriving DecidableEq, Repr

/-- Whether an input supplies an announcement interval (a greet reply or
a broadcast on the announcement subject). -/
def suppliesInterval : SyncerInput → Bool
  | SyncerInput.greetReply _ _ => true
  | SyncerInput.routerStart _ _ => true
  | _ => false

/-- Modelled from the spec: one reaction of the Syncer's dispatch loop.
On start it immediately publishes a greet; a greet-retry tick publishes a
greet only while no interval has been learned; a greet reply or broadcast
stores the interval (cancelling further greet retries); the emit timer
delivers an Emit signal only once an interval is armed; the sync timer
delivers a Sync signal irrespective of the interval state. -/
def syncerStep : SyncerState → SyncerInput → SyncerState × List SyncerOutput
  | s, SyncerInput.start => (s, [SyncerOutput.publishGreet])
  | s, SyncerInput.greetRetryTick =>
      (s, if s.interval.isNone then [SyncerOutput.publishGreet] else [])
  | _, SyncerInput.greetReply i _ => ({ interval := some i }, [])
  | _, SyncerInput.routerStart i _ => ({ interval := some i }, [])
  | s, SyncerInput.emitTick =>
      (s, if s.interval.isSome then [SyncerOutput.emitSignal] else [])
  | s, SyncerInput.syncTick => (s, [SyncerOutput.syncSignal])

/-- Run of the Syncer dispatch loop over a sequence of inputs, collecting
the outputs in order. -/
def syncerRun (s : SyncerState) : List SyncerInput → SyncerState × List SyncerOutput
  | [] => (s, [])
  | i :: rest =>
      let r := syncerStep s i
      let rr := syncerRun r.1 rest
      (rr.1, r.2 ++ rr.2)

/-- The initial Syncer state: no announcement interval known yet. -/
def syncerInit : SyncerState := { interval := none }

/-- A `lagerflags.LagerConfig` (external; only enough structure to record
the default). -/
structure LagerConfig where
  logLevel : String
  deriving DecidableEq, Repr

/-- The external `lagerflags.DefaultLagerConfig()`. -/
def defaultLagerConfig : LagerConfig := { logLevel := "info" }

/-- A `debugserver.DebugServerConfig` (external). -/
structure DebugServerConfig where
  debugAddress : String
  deriving DecidableEq, Repr

/-- `config.RoutingAPIConfig`. -/
structure RoutingAPIConfig where
  uri : String
  port : Int
  authDisabled : Bool
  deriving DecidableEq, Repr

/-- `config.OAuthConfig`. -/
structure OAuthConfig where
  tokenEndpoint : String
  port : Int
  skipSSLValidation : Bool
  clientName : String
  clientSecret : String
  caCerts : String
  deriving DecidableEq, Repr

/-- One nanosecond-denominated second (`time.Second`). -/
def timeSecond : Nat := 1000000000

/-- `time.Minute` in nanoseconds. -/
def timeMinute : Nat := 60 * timeSecond

/-- The external constant `locket.RetryInterval` (5 seconds). -/
def locketRetryInterval : Nat := 5 * timeSecond

/-- The external constant `locket.DefaultSessionTTL` (15 seconds). -/
def locketDefaultSessionTTL : Nat := 15 * timeSecond

/-- `config.RouteEmitterConfig`; `durationjson.Duration` fields become
nanosecond counts. -/
structure RouteEmitterConfig where
  bbsAddress : String
  bbsCACertFile : String
  bbsClientCertFile : String
  bbsClientKeyFile : String
  bbsClientSessionCacheSize : Int
  bbsMaxIdleConnsPerHost : Int
  cellID : String
  communicationTimeout : Nat
  consulCluster : String
  consulDownModeNotificationInterval : Nat
  consulSessionName : String
  dropsondePort : Int
  healthCheckAddress : String
  lockRetryInterval : Nat
  lockTTL : Nat
  natsAddresses : String
  natsUsername : String
  natsPassword : String
  routeEmittingWorkers : Int
  syncInterval : Nat
  oauth : OAuthConfig
  routingAPI : RoutingAPIConfig
  lagerConfig : LagerConfig
  debugServerConfig : DebugServerConfig
  deriving DecidableEq, Repr

/-- The Go zero value `RouteEmitterConfig{}`. -/
def zeroRouteEmitterConfig : RouteEmitterConfig :=
  { bbsAddress := ""
    bbsCACertFile := ""
    bbsClientCertFile := ""
    bbsClientKeyFile := ""
    bbsClientSessionCacheSize := 0
    bbsMaxIdleConnsPerHost := 0
    cellID := ""
    communicationTimeout := 0
    consulCluster := ""
    consulDownModeNotificationInterval := 0
    consulSessionName := ""
    dropsondePort := 0
    healthCheckAddress := ""
    lockRetryInterval := 0
    lockTTL := 0
    natsAddresses := ""
    natsUsername := ""
    natsPassword := ""
    routeEmittingWorkers := 0
    syncInterval := 0
    oauth := { tokenEndpoint := "", port := 0, skipSSLValidation := false,
               clientName := "", clientSecret := "", caCerts := "" }
    routingAPI := { uri := "", port := 0, authDisabled := false }
    lagerConfig := { logLevel := "" }
    debugServerConfig := { debugAddress := "" } }

/-- `config.DefaultRouteEmitterConfig` (lines 56-71): the struct literal
sets the listed fields; every other field keeps its zero value. -/
def DefaultRouteEmitterConfig : RouteEmitterConfig :=
  { zeroRouteEmitterConfig with
    communicationTimeout := 30 * timeSecond
    consulDownModeNotificationInterval := timeMinute
    consulSessionName := "route-emitter"
    dropsondePort := 3457
    lockRetryInterval := locketRetryInterval
    lockTTL := locketDefaultSessionTTL
    natsAddresses := "nats://127.0.0.1:4222"
    natsUsername := "nats"
    natsPassword := "nats"
    routeEmittingWorkers := 20
    syncInterval := timeMinute
    lagerConfig := defaultLagerConfig }

/-- The fields present in a decoded JSON config document:
`json.Decoder.Decode` into an existing struct assigns exactly the fields
present in the document and leaves the rest untouched. -/
structure RouteEmitterConfigOverlay where
  bbsAddress : Option String := none
  bbsCACertFile : Option String := none
  bbsClientCertFile : Option String := none
  bbsClientKeyFile : Option String := none
  bbsClientSessionCacheSize : Option Int := none
  bbsMaxIdleConnsPerHost : Option Int := none
  cellID : Option String := none
  communicationTimeout : Option Nat := none
  consulCluster : Option String := none
  consulDownModeNotificationInterval : Option Nat := none
  consulSessionName : Option String := none
  dropsondePort : Option Int := none
  healthCheckAddress : Option String := none
  lockRetryInterval : Option Nat := none
  lockTTL : Option Nat := none
  natsAddresses : Option String := none
  natsUsername : Option String := none
  natsPassword : Option String := none
  routeEmittingWorkers : Option Int := none
  syncInterval : Option Nat := none
  oauth : Option OAuthConfig := none
  routingAPI : Option RoutingAPIConfig := none
  lagerConfig : Option LagerConfig := none
  debugServerConfig : Option DebugServerConfig := none
  deriving DecidableEq, Repr

/-- Overlay the fields present in a decoded document onto a base config
(the effect of `decoder.Decode(&routeEmitterConfig)`). -/
def applyOverlay (base : RouteEmitterConfig) (o : RouteEmitterConfigOverlay) :
    RouteEmitterConfig :=
  { bbsAddress := o.bbsAddress.getD base.bbsAddress
    bbsCACertFile := o.bbsCACertFile.getD base.bbsCACertFile
    bbsClientCertFile := o.bbsClientCertFile.getD base.bbsClientCertFile
    bbsClientKeyFile := o.bbsClientKeyFile.getD base.bbsClientKeyFile
    bbsClientSessionCacheSize := o.bbsClientSessionCacheSize.getD base.bbsClientSessionCacheSize
    bbsMaxIdleConnsPerHost := o.bbsMaxIdleConnsPerHost.getD base.bbsMaxIdleConnsPerHost
    cellID := o.cellID.getD base.cellID
    communicationTimeout := o.communicationTimeout.getD base.communicationTimeout
    consulCluster := o.consulCluster.getD base.consulCluster
    consulDownModeNotificationInterval :=
      o.consulDownModeNotificationInterval.getD base.consulDownModeNotificationInterval
    consulSessionName := o.consulSessionName.getD base.consulSessionName
    dropsondePort := o.dropsondePort.getD base.dropsondePort
    healthCheckAddress := o.healthCheckAddress.getD base.healthCheckAddress
    lockRetryInterval := o.lockRetryInterval.getD base.lockRetryInterval
    lockTTL := o.lockTTL.getD base.lockTTL
    natsAddresses := o.natsAddresses.getD base.natsAddresses
    natsUsername := o.natsUsername.getD base.natsUsername
    natsPassword := o.natsPassword.getD base.natsPassword
    routeEmittingWorkers := o.routeEmittingWorkers.getD base.routeEmittingWorkers
    syncInterval := o.syncInterval.getD base.syncInterval
    oauth := o.oauth.getD base.oauth
    routingAPI := o.routingAPI.getD base.routingAPI
    lagerConfig := o.lagerConfig.getD base.lagerConfig
    debugServerConfig := o.debugServerConfig.getD base.debugServerConfig }

/-- The result of `os.Open`: an error or a handle on the file's
contents. -/
inductive FileOpenResult where
  | openError (err : String)
  | opened (contents : String)

/-- Oracle environment for the config loader: the file system
(`os.Open`) and the JSON decoder (`json.Decoder.Decode`), the latter
returning either a decode error or the set of fields present in the
document. -/
structure ConfigEnv where
  osOpen : String → FileOpenResult
  jsonDecode : String → Except String RouteEmitterConfigOverlay

/-- `config.NewRouteEmitterConfig` (lines 73-88): start from the
defaults; on an open error return the zero-value config with the error;
otherwise decode the file over the defaults, returning the zero-value
config with the error on a decode failure, and the overlaid defaults on
success. -/
def NewRouteEmitterConfig (cfgEnv : ConfigEnv) (configPath : String) :
    RouteEmitterConfig × Option String :=
  let routeEmitterConfig := DefaultRouteEmitterConfig
  match cfgEnv.osOpen configPath with
  | FileOpenResult.openError err => (zeroRouteEmitterConfig, some err)
  | FileOpenResult.opened contents =>
      match cfgEnv.jsonDecode contents with
      | Except.error err => (zeroRouteEmitterConfig, some err)
      | Except.ok overlay => (applyOverlay routeEmitterConfig overlay, none)

/-! Shared lemmas about the handler embedding. -/

/-- The emissions produced by `emitMessages` depend only on the presence
flags and the delta, never on the emitters' error results. -/
theorem emitMessages_fst {T : Type} (handler : NATSHandler T) (env : EmitEnv)
    (m : MessagesToEmit) (r : TCPRouteMappings) :
    (emitMessages handler env m r).1 =
      (if handler.natsEmitter then [Emission.nats m] else []) ++
        (if handler.routingAPIEmitter then [Emission.routingAPI r] else []) := by
  unfold emitMessages
  rcases hn : env.natsEmitErr m with _ | e <;>
    rcases ha : env.routingAPIEmitErr r with _ | e2 <;>
      cases handler.natsEmitter <;> cases handler.routingAPIEmitter <;> simp [hn, ha]

/-- The emissions produced by `Emit` depend only on the presence flags and
the table's dump, never on the emitters' error results. -/
theorem Emit_fst {T : Type} (impl : RoutingTable T) (handler : NATSHandler T)
    (env : EmitEnv) :
    (Emit impl handler env).1 =
      (if handler.natsEmitter then [Emission.nats (impl.emit handler.routingTable).2] else []) ++
        (if handler.routingAPIEmitter then
          [Emission.routingAPI (impl.emit handler.routingTable).1] else []) := by
  unfold Emit
  rcases hn : env.natsEmitErr (impl.emit handler.routingTable).2 with _ | e <;>
    rcases ha : env.routingAPIEmitErr (impl.emit handler.routingTable).1 with _ | e2 <;>
      cases handler.natsEmitter <;> cases handler.routingAPIEmitter <;> simp [hn, ha]

/-- HandleEvent never changes the emitter-presence flags or the local-mode
flag of the handler. -/
theorem handleEvent_preserves_flags {T : Type} (impl : RoutingTable T)
    (handler : NATSHandler T) (env : EmitEnv) (event : Event) :
    (HandleEvent impl handler env event).handler.natsEmitter = handler.natsEmitter ∧
    (HandleEvent impl handler env event).handler.routingAPIEmitter = handler.routingAPIEmitter ∧
    (HandleEvent impl handler env event).handler.localMode = handler.localMode := by
  cases event <;>
    simp only [HandleEvent, handleDesiredCreate, handleDesiredUpdate, handleDesiredDelete,
      handleActualCreate, handleActualUpdate, handleActualDelete] <;>
    (try split) <;> simp

/-- The handler state produced by `HandleEvent` does not depend on the
emitters' error results. -/
theorem handleEvent_handler_env_indep {T : Type} (impl : RoutingTable T)
    (handler : NATSHandler T) (env env' : EmitEnv) (event : Event) :
    (HandleEvent impl handler env event).handler =
      (HandleEvent impl handler env' event).handler := by
  cases event <;>
    simp only [HandleEvent, handleDesiredCreate, handleDesiredUpdate, handleDesiredDelete,
      handleActualCreate, handleActualUpdate, handleActualDelete] <;>
    (try split) <;> simp

/-- The emissions produced by `HandleEvent` do not depend on the emitters'
error results. -/
theorem handleEvent_emissions_env_indep {T : Type} (impl : RoutingTable T)
    (handler : NATSHandler T) (env env' : EmitEnv) (event : Event) :
    (HandleEvent impl handler env event).emissions =
      (HandleEvent impl handler env' event).emissions := by
  cases event <;>
    simp only [HandleEvent, handleDesiredCreate, handleDesiredUpdate, handleDesiredDelete,
      handleActualCreate, handleActualUpdate, handleActualDelete] <;>
    (try split) <;> simp [emitMessages_fst]

/-- When both emitter fields are nil, `HandleEvent` produces no
emissions. -/
theorem handleEvent_detached_no_emissions {T : Type} (impl : RoutingTable T)
    (handler : NATSHandler T) (env : EmitEnv) (event : Event)
    (hn : handler.natsEmitter = false) (ha : handler.routingAPIEmitter = false) :
    (HandleEvent impl handler env event).emissions = [] := by
  cases event <;>
    simp only [HandleEvent, handleDesiredCreate, handleDesiredUpdate, handleDesiredDelete,
      handleActualCreate, handleActualUpdate, handleActualDelete] <;>
    (try split) <;> simp [emitMessages_fst, hn, ha]

/-- Invariant of the replay fold of `Sync`: starting from a detached
accumulator, the fold keeps the emitters detached and produces no
emissions. -/
theorem syncReplay_foldl_detached {T : Type} (impl : RoutingTable T) (env : EmitEnv)
    (iter : List (String × Event)) :
    ∀ acc : HandlerResult T, acc.emissions = [] →
      acc.handler.natsEmitter = false → acc.handler.routingAPIEmitter = false →
      (iter.foldl (handleEventAccum impl env) acc).emissions = [] ∧
      (iter.foldl (handleEventAccum impl env) acc).handler.natsEmitter = false ∧
      (iter.foldl (handleEventAccum impl env) acc).handler.routingAPIEmitter = false := by
  induction iter with
  | nil => intro acc h1 h2 h3; exact ⟨h1, h2, h3⟩
  | cons kv rest ih =>
      intro acc h1 h2 h3
      simp only [List.foldl_cons]
      refine ih _ ?_ ?_ ?_
      · simp [handleEventAccum, h1, handleEvent_detached_no_emissions impl _ env kv.2 h2 h3]
      · simp [handleEventAccum, (handleEvent_preserves_flags impl _ env kv.2).1, h2]
      · simp [handleEventAccum, (handleEvent_preserves_flags impl _ env kv.2).2.1, h3]

/-- The replay phase of `Sync` emits nothing. -/
theorem syncReplay_emissions_nil {T : Type} (impl : RoutingTable T) (env : EmitEnv)
    (handler : NATSHandler T) (t : T) (iter : List (String × Event)) :
    (syncReplay impl env handler t iter).emissions = [] :=
  (syncReplay_foldl_detached impl env iter
    { handler := syncDetachedHandler handler t, emissions := [], logs := [] }
    rfl rfl rfl).1

/-- Go map assignment preserves the key sequence when the key is already
present and appends the key otherwise. -/
theorem goMapInsert_keys (m : List (String × Event)) (k : String) (v : Event) :
    (goMapInsert m k v).map Prod.fst =
      if m.any (fun p => p.1 == k) then m.map Prod.fst else m.map Prod.fst ++ [k] := by
  unfold goMapInsert
  split
  · simp only [List.map_map]
    refine List.map_congr_left ?_
    intro p _
    by_cases hp : p.1 = k
    · simp [hp]
    · simp [hp]
  · simp

/-- Go map assignment preserves distinctness of keys. -/
theorem goMapInsert_keys_nodup (m : List (String × Event)) (k : String) (v : Event)
    (h : (m.map Prod.fst).Nodup) : ((goMapInsert m k v).map Prod.fst).Nodup := by
  rw [goMapInsert_keys]
  split
  · exact h
  · next hany =>
      have hk : k ∉ m.map Prod.fst := by
        intro hmem
        obtain ⟨p, hp, hpk⟩ := List.mem_map.mp hmem
        exact hany (List.any_eq_true.mpr ⟨p, hp, by simp [hpk]⟩)
      simp [List.nodup_append, h, hk]

/-- The keys of a Go map built from an assignment list are distinct: the
map deduplicates entries by key. -/
theorem goMapOfList_keys_nodup (kvs : List (String × Event)) :
    ((goMapOfList kvs).map Prod.fst).Nodup := by
  suffices h : ∀ (l : List (String × Event)) (m : List (String × Event)),
      (m.map Prod.fst).Nodup →
      ((l.foldl (fun m kv => goMapInsert m kv.1 kv.2) m).map Prod.fst).Nodup by
    exact h kvs [] (by simp)
  intro l
  induction l with
  | nil => intro m hm; exact hm
  | cons kv rest ih =>
      intro m hm
      exact ih _ (goMapInsert_keys_nodup m kv.1 kv.2 hm)

/-- Every entry of a Go map after an assignment is either an old entry or
the assigned pair. -/
theorem goMapInsert_mem (m : List (String × Event)) (k : String) (v : Event)
    (kv : String × Event) (h : kv ∈ goMapInsert m k v) : kv ∈ m ∨ kv = (k, v) := by
  unfold goMapInsert at h
  split at h
  · obtain ⟨p, hp, hf⟩ := List.mem_map.mp h
    by_cases hpk : p.1 = k
    · right
      rw [← hf]
      simp [hpk]
    · left
      rw [← hf]
      simpa [hpk] using hp
  · rcases List.mem_append.mp h with h1 | h1
    · exact Or.inl h1
    · right
      simpa using h1

/-- Every entry of a Go map built from an assignment list is one of the
assigned pairs. -/
theorem goMapOfList_mem (kvs : List (String × Event)) (kv : String × Event)
    (h : kv ∈ goMapOfList kvs) : kv ∈ kvs := by
  suffices haux : ∀ (l : List (String × Event)) (m : List (String × Event)),
      kv ∈ l.foldl (fun m p => goMapInsert m p.1 p.2) m → kv ∈ m ∨ kv ∈ l by
    rcases haux kvs [] h with h1 | h1
    · simp at h1
    · exact h1
  intro l
  induction l with
  | nil => intro m hm; exact Or.inl hm
  | cons p rest ih =>
      intro m hm
      rcases ih (goMapInsert m p.1 p.2) hm with h1 | h1
      · rcases goMapInsert_mem m p.1 p.2 kv h1 with h2 | h2
        · exact Or.inl h2
        · right
          simp [h2]
      · right
        simp [h1]

/-- The handler state reached by the replay fold is the fold of the
handler component of `HandleEvent` alone. -/
theorem syncReplay_handler_foldl {T : Type} (impl : RoutingTable T) (env : EmitEnv)
    (handler : NATSHandler T) (t : T) (iter : List (String × Event)) :
    (syncReplay impl env handler t iter).handler =
      iter.foldl (fun h kv => (HandleEvent impl h env kv.2).handler)
        (syncDetachedHandler handler t) := by
  suffices haux : ∀ (l : List (String × Event)) (acc : HandlerResult T),
      (l.foldl (handleEventAccum impl env) acc).handler =
        l.foldl (fun h kv => (HandleEvent impl h env kv.2).handler) acc.handler by
    exact haux iter { handler := syncDetachedHandler handler t, emissions := [], logs := [] }
  intro l
  induction l with
  | nil => intro acc; rfl
  | cons kv rest ih =>
      intro acc
      simp only [List.foldl_cons]
      rw [ih]
      rfl

/-- Once the Syncer has learned an interval, no step forgets it. -/
theorem syncerStep_keeps_interval (s : SyncerState) (i : SyncerInput)
    (hs : s.interval.isSome = true) : ((syncerStep s i).1).interval.isSome = true := by
  cases i <;> simp [syncerStep] <;> exact hs

/-- After the interval is learned, a run containing no start input never
publishes a greet request. -/
theorem syncerRun_no_greet_when_intervaled (inputs : List SyncerInput) :
    ∀ s : SyncerState, s.interval.isSome = true → SyncerInput.start ∉ inputs →
      SyncerOutput.publishGreet ∉ (syncerRun s inputs).2 := by
  induction inputs with
  | nil => intro s _ _; simp [syncerRun]
  | cons i rest ih =>
      intro s hs hstart
      have hstart1 : i ≠ SyncerInput.start := by
        intro h
        exact hstart (by simp [h])
      have hstart2 : SyncerInput.start ∉ rest := by
        intro h
        exact hstart (by simp [h])
      have hrest := ih (syncerStep s i).1 (syncerStep_keeps_interval s i hs) hstart2
      simp only [syncerRun, List.mem_append]
      rintro (hcur | hcur)
      · cases i with
        | start => exact hstart1 rfl
        | greetRetryTick =>
            simp [syncerStep, Option.isNone_iff_eq_none] at hcur
            rw [hcur] at hs
            simp at hs
        | greetReply i p => simp [syncerStep] at hcur
        | routerStart i p => simp [syncerStep] at hcur
        | emitTick => simp [syncerStep] at hcur
        | syncTick => simp [syncerStep] at hcur
      · exact hrest hcur

/-- A run over inputs none of which supplies an interval keeps the Syncer
in the AwaitingInterval state. -/
theorem syncerRun_keeps_awaiting (inputs : List SyncerInput) :
    ∀ s : SyncerState, s.interval = none → (∀ i ∈ inputs, suppliesInterval i = false) →
      (syncerRun s inputs).1.interval = none := by
  induction inputs with
  | nil => intro s hs _; exact hs
  | cons i rest ih =>
      intro s hs hsup
      have hcur : (syncerStep s i).1.interval = none := by
        cases i <;> simp_all [syncerStep, suppliesInterval]
      exact ih _ hcur (fun j hj => hsup j (by simp [hj]))

/-- An input that supplies an interval leaves the Syncer in the
Intervaled state, whatever the previous state. -/
theorem syncerStep_supply_intervaled (s : SyncerState) (i : SyncerInput)
    (h : suppliesInterval i = true) : ((syncerStep s i).1).interval.isSome = true := by
  cases i <;> simp_all [syncerStep, suppliesInterval]

/-- The routing-table state produced by `HandleEvent` does not depend on
the emitter-presence or local-mode flags of the handler. -/
theorem handleEvent_routingTable_flag_indep {T : Type} (impl : RoutingTable T)
    (t : T) (n1 a1 l1 n2 a2 l2 : Bool) (env : EmitEnv) (event : Event) :
    (HandleEvent impl ⟨t, n1, a1, l1⟩ env event).handler.routingTable =
      (HandleEvent impl ⟨t, n2, a2, l2⟩ env event).handler.routingTable := by
  cases event <;>
    simp only [HandleEvent, handleDesiredCreate, handleDesiredUpdate, handleDesiredDelete,
      handleActualCreate, handleActualUpdate, handleActualDelete] <;>
    (try split) <;> simp

/-- The spec's description of Sync's first phase: replay
`SetRoutes`/`AddEndpoint` for every desired and actual entry, in order,
against an empty table. -/
def specSnapshotReplayTable {T : Type} (impl : RoutingTable T)
    (desired : List DesiredLRPSchedulingInfo) (actuals : List ActualLRPRoutingInfo) : T :=
  (desired.map Sum.inl ++ actuals.map Sum.inr).foldl
    (fun t op =>
      match op with
      | Sum.inl d => (impl.setRoutes t none d).1
      | Sum.inr a => (impl.addEndpoint t a).1)
    impl.newTable

/-! Concrete fixtures used by witnesses and counterexamples. -/

/-- A handler with both emitters present, over the trace table. -/
def handler0 : NATSHandler (List TableOp) :=
  { routingTable := [], natsEmitter := true, routingAPIEmitter := true, localMode := false }

/-- An error-free emitter environment. -/
def env0 : EmitEnv :=
  { natsEmitErr := fun _ => none, routingAPIEmitErr := fun _ => none }

/-- A Running actual LRP used in concrete runs. -/
def cexActualA : ActualLRPRoutingInfo :=
  { actualLRP := { instanceGuid := "ig-a", state := ActualLRPState.Running, netInfo := "1.1.1.1" },
    evacuating := false }

/-- A second Running actual LRP used in concrete runs. -/
def cexActualB : ActualLRPRoutingInfo :=
  { actualLRP := { instanceGuid := "ig-b", state := ActualLRPState.Running, netInfo := "2.2.2.2" },
    evacuating := false }

/-- Two cached events, with distinct keys, in their arrival order. -/
def cexArrivals : List (String × Event) :=
  [("key-a", Event.actualLRPCreated cexActualA), ("key-b", Event.actualLRPCreated cexActualB)]

/-- A legal Go map iteration order over `cexArrivals` that reverses the
arrival order. -/
def cexIter : List (String × Event) :=
  [("key-b", Event.actualLRPCreated cexActualB), ("key-a", Event.actualLRPCreated cexActualA)]

/-- Two cached events assigned under the same caller key, in arrival
order: the Go map keeps only the later one. -/
def w1Arrivals : List (String × Event) :=
  [("key-1", Event.unrecognized "stale"), ("key-1", Event.unrecognized "fresh")]

/-- The (only possible) iteration order of the map built from
`w1Arrivals`. -/
def w1Iter : List (String × Event) :=
  [("key-1", Event.unrecognized "fresh")]

/-- C1 counterexample: the cached-events argument of `Sync` is a Go map
and the Go language specification leaves map iteration order unspecified,
so the replay loop may apply the events in any permutation of the map's
entries.  For the concrete map holding `cexArrivals`, the legal iteration
order `cexIter` (a permutation of the entries) makes `Sync` apply the two
events in the reverse of their arrival order, observably: the resulting
table differs from the one produced by the arrival-order iteration.
Hence the claim's "the replay applies the events in their arrival order"
is false. -/
theorem sync_replay_order_differs_from_arrival_order :
    cexIter.Perm (goMapOfList cexArrivals) ∧
    (Sync traceTable handler0 env0 [] [] [] cexIter).handler.routingTable ≠
      (Sync traceTable handler0 env0 [] [] [] cexArrivals).handler.routingTable := by
  decide

/-- C1 (amended): for every call to Sync, every entry of the cachedEvents
map is replayed through HandleEvent against the newly built table before
the swap, with duplicates deduplicated by their caller-assigned key (the
map's keys are distinct and every entry stems from an arrival); the
replay applies the events in the map's unspecified iteration order — an
arbitrary permutation `iter` of the entries — not necessarily in arrival
order. -/
theorem sync_replays_deduplicated_cached_events {T : Type} (impl : RoutingTable T)
    (handler : NATSHandler T) (env : EmitEnv) (desired : List DesiredLRPSchedulingInfo)
    (actuals : List ActualLRPRoutingInfo) (domains : DomainSet)
    (arrivals iter : List (String × Event))
    (hperm : iter.Perm (goMapOfList arrivals)) :
    ((goMapOfList arrivals).map Prod.fst).Nodup ∧
    (∀ kv ∈ goMapOfList arrivals, kv ∈ iter ∧ kv ∈ arrivals) ∧
    (syncReplay impl env handler (syncBuiltTable impl desired actuals) iter).handler =
      iter.foldl (fun h kv => (HandleEvent impl h env kv.2).handler)
        (syncDetachedHandler handler (syncBuiltTable impl desired actuals)) ∧
    (Sync impl handler env desired actuals domains iter).handler.routingTable =
      (impl.swap handler.routingTable
        (syncReplay impl env handler (syncBuiltTable impl desired actuals) iter).handler.routingTable
        domains).1 := by
  refine ⟨goMapOfList_keys_nodup arrivals, ?_, syncReplay_handler_foldl impl env handler _ iter, rfl⟩
  intro kv hkv
  exact ⟨hperm.mem_iff.mpr hkv, goMapOfList_mem arrivals kv hkv⟩

/-- C1 witness: concrete instantiation of the amended theorem, with two
arrivals under the same key (deduplicated to the later one). -/
theorem sync_replays_deduplicated_cached_events_witness :
    w1Iter.Perm (goMapOfList w1Arrivals) ∧
    (((goMapOfList w1Arrivals).map Prod.fst).Nodup ∧
      (∀ kv ∈ goMapOfList w1Arrivals, kv ∈ w1Iter ∧ kv ∈ w1Arrivals) ∧
      (syncReplay traceTable env0 handler0 (syncBuiltTable traceTable [] []) w1Iter).handler =
        w1Iter.foldl (fun h kv => (HandleEvent traceTable h env0 kv.2).handler)
          (syncDetachedHandler handler0 (syncBuiltTable traceTable [] [])) ∧
      (Sync traceTable handler0 env0 [] [] [] w1Iter).handler.routingTable =
        (traceTable.swap handler0.routingTable
          (syncReplay traceTable env0 handler0 (syncBuiltTable traceTable [] []) w1Iter).handler.routingTable
          []).1) :=
  have hp : w1Iter.Perm (goMapOfList w1Arrivals) := by decide
  ⟨hp, sync_replays_deduplicated_cached_events traceTable handler0 env0 [] [] [] w1Arrivals
    w1Iter hp⟩

/-- C2: during Sync's replay window no message reaches either emitter
(the replay fold produces no emissions), and the only emission Sync
produces is the single delta returned by `Swap(newTable, domains)`, sent
through the restored real emitters. -/
theorem sync_emits_only_swap_delta {T : Type} (impl : RoutingTable T)
    (handler : NATSHandler T) (env : EmitEnv) (desired : List DesiredLRPSchedulingInfo)
    (actuals : List ActualLRPRoutingInfo) (domains : DomainSet)
    (iter : List (String × Event)) (t : T) :
    (syncReplay impl env handler t iter).emissions = [] ∧
    (Sync impl handler env desired actuals domains iter).emissions =
      (emitMessages
        { handler with routingTable :=
            (impl.swap handler.routingTable
              (syncReplay impl env handler (syncBuiltTable impl desired actuals) iter).handler.routingTable
              domains).1 }
        env
        (impl.swap handler.routingTable
          (syncReplay impl env handler (syncBuiltTable impl desired actuals) iter).handler.routingTable
          domains).2.2
        (impl.swap handler.routingTable
          (syncReplay impl env handler (syncBuiltTable impl desired actuals) iter).handler.routingTable
          domains).2.1).1 := by
  constructor
  · exact syncReplay_emissions_nil impl env handler t iter
  · simp only [Sync, syncReplay_emissions_nil, List.nil_append]

/-- C3: HandleEvent obeys the Running-state rule: an actual-LRP created
event calls AddEndpoint only when the record is Running; an actual-LRP
changed event calls AddEndpoint(after) when the after state is Running,
calls RemoveEndpoint(before) when the after state is not Running but the
before state was, and calls neither otherwise; an actual-LRP removed
event calls RemoveEndpoint only when the record is Running.  Observed on
the trace table, which records exactly the mutator calls made. -/
theorem handleEvent_running_state_rule (handler : NATSHandler (List TableOp))
    (env : EmitEnv) (a before after : ActualLRPRoutingInfo) :
    (HandleEvent traceTable handler env (Event.actualLRPCreated a)).handler.routingTable =
      handler.routingTable ++
        (if a.actualLRP.state = ActualLRPState.Running then [TableOp.addEndpoint a] else []) ∧
    (HandleEvent traceTable handler env (Event.actualLRPChanged before after)).handler.routingTable =
      handler.routingTable ++
        (if after.actualLRP.state = ActualLRPState.Running then [TableOp.addEndpoint after]
          else if before.actualLRP.state = ActualLRPState.Running then
            [TableOp.removeEndpoint before]
          else []) ∧
    (HandleEvent traceTable handler env (Event.actualLRPRemoved a)).handler.routingTable =
      handler.routingTable ++
        (if a.actualLRP.state = ActualLRPState.Running then [TableOp.removeEndpoint a] else []) := by
  refine ⟨?_, ?_, ?_⟩
  · simp only [HandleEvent, handleActualCreate, traceTable]
    split <;> simp_all
  · simp only [HandleEvent, handleActualUpdate, traceTable]
    by_cases h1 : after.actualLRP.state = ActualLRPState.Running
    · simp [h1]
    · by_cases h2 : before.actualLRP.state = ActualLRPState.Running <;> simp [h1, h2]
  · simp only [HandleEvent, handleActualDelete, traceTable]
    split <;> simp_all

/-- C4: the table Sync builds in its first phase equals the fold, from an
empty table, of SetRoutes(nil, d) over the desired snapshot in order
followed by AddEndpoint(a) over the actuals snapshot in order. -/
theorem syncBuiltTable_eq_spec_snapshot_replay {T : Type} (impl : RoutingTable T)
    (desired : List DesiredLRPSchedulingInfo) (actuals : List ActualLRPRoutingInfo) :
    syncBuiltTable impl desired actuals = specSnapshotReplayTable impl desired actuals := by
  unfold syncBuiltTable specSnapshotReplayTable
  rw [List.foldl_append, List.foldl_map, List.foldl_map]

/-- C5: an error returned by one emitter's Emit has no effect on the
emissions made (only on the logs): the emissions of emitMessages, Emit
and HandleEvent are identical under any two error environments, the
routing-API emitter is invoked exactly when it is present (whatever the
NATS emitter returned) and vice versa, and the handler state (hence the
table mutation that produced the delta) is unaffected by emitter
errors. -/
theorem emitter_failure_isolation {T : Type} (impl : RoutingTable T)
    (handler : NATSHandler T) (env env' : EmitEnv) (m : MessagesToEmit)
    (r : TCPRouteMappings) (event : Event) :
    (emitMessages handler env m r).1 = (emitMessages handler env' m r).1 ∧
    (Emission.nats m ∈ (emitMessages handler env m r).1 ↔ handler.natsEmitter = true) ∧
    (Emission.routingAPI r ∈ (emitMessages handler env m r).1 ↔
      handler.routingAPIEmitter = true) ∧
    (Emit impl handler env).1 = (Emit impl handler env').1 ∧
    (HandleEvent impl handler env event).handler = (HandleEvent impl handler env' event).handler ∧
    (HandleEvent impl handler env event).emissions =
      (HandleEvent impl handler env' event).emissions := by
  refine ⟨by rw [emitMessages_fst, emitMessages_fst], ?_, ?_, by rw [Emit_fst, Emit_fst],
    handleEvent_handler_env_indep impl handler env env' event,
    handleEvent_emissions_env_indep impl handler env env' event⟩
  · rw [emitMessages_fst]
    cases handler.natsEmitter <;> cases handler.routingAPIEmitter <;> simp
  · rw [emitMessages_fst]
    cases handler.natsEmitter <;> cases handler.routingAPIEmitter <;> simp

/-- C6: an unrecognized event leaves the handler untouched, produces no
emission, logs the event kind as an error, and returns normally (the
embedding is a total function). -/
theorem unrecognized_event_inert {T : Type} (impl : RoutingTable T)
    (handler : NATSHandler T) (env : EmitEnv) (eventType : String) :
    (HandleEvent impl handler env (Event.unrecognized eventType)).handler = handler ∧
    (HandleEvent impl handler env (Event.unrecognized eventType)).emissions = [] ∧
    (HandleEvent impl handler env (Event.unrecognized eventType)).logs =
      [LogEntry.error "did-not-handle-unrecognizable-event" [("event-type", eventType)]] :=
  ⟨rfl, rfl, rfl⟩

/-- C7: a nil NATS emitter only suppresses the bus publish — Emit and
emitMessages still deliver to the routing-API emitter exactly when it is
present — and a nil routing-API emitter only suppresses the routing-API
channel; neither absence changes the table mutation HandleEvent performs
(and every operation remains total, so nothing fails). -/
theorem absent_emitter_disables_only_its_channel {T : Type} (impl : RoutingTable T)
    (t : T) (natsPresent apiPresent lm : Bool) (env : EmitEnv) (event : Event)
    (m : MessagesToEmit) (r : TCPRouteMappings) :
    (Emit impl ⟨t, false, apiPresent, lm⟩ env).1 =
      (if apiPresent then [Emission.routingAPI (impl.emit t).1] else []) ∧
    (emitMessages ⟨t, false, apiPresent, lm⟩ env m r).1 =
      (if apiPresent then [Emission.routingAPI r] else []) ∧
    (Emit impl ⟨t, natsPresent, false, lm⟩ env).1 =
      (if natsPresent then [Emission.nats (impl.emit t).2] else []) ∧
    (emitMessages ⟨t, natsPresent, false, lm⟩ env m r).1 =
      (if natsPresent then [Emission.nats m] else []) ∧
    (HandleEvent impl ⟨t, false, apiPresent, lm⟩ env event).handler.routingTable =
      (HandleEvent impl ⟨t, true, apiPresent, lm⟩ env event).handler.routingTable ∧
    (HandleEvent impl ⟨t, natsPresent, false, lm⟩ env event).handler.routingTable =
      (HandleEvent impl ⟨t, natsPresent, true, lm⟩ env event).handler.routingTable := by
  refine ⟨by rw [Emit_fst]; simp, by rw [emitMessages_fst]; simp,
    by rw [Emit_fst]; simp, by rw [emitMessages_fst]; simp,
    handleEvent_routingTable_flag_indep impl t false apiPresent lm true apiPresent lm env event,
    handleEvent_routingTable_flag_indep impl t natsPresent false lm natsPresent true lm env event⟩

/-- C8: ShouldRefreshDesired is exactly the negation of the table's
HasExternalRoutes, and — being a Bool-valued pure query — mutates
nothing. -/
theorem shouldRefreshDesired_negates_hasExternalRoutes {T : Type} (impl : RoutingTable T)
    (handler : NATSHandler T) (actual : ActualLRPRoutingInfo) :
    ShouldRefreshDesired impl handler actual =
      !impl.hasExternalRoutes handler.routingTable actual ∧
    (ShouldRefreshDesired impl handler actual = true ↔
      impl.hasExternalRoutes handler.routingTable actual = false) := by
  constructor
  · rfl
  · simp [ShouldRefreshDesired]

/-- C9: on start the Syncer publishes a greet immediately; while no
interval has been learned (no interval-supplying input has occurred),
each greet-retry tick publishes another greet; and once any input
supplies an interval, no later step of the run ever publishes a greet
again. -/
theorem syncer_greets_until_interval_learned (pre post : List SyncerInput)
    (supply : SyncerInput) (hpre : ∀ i ∈ pre, suppliesInterval i = false)
    (hsupply : suppliesInterval supply = true) (hpost : SyncerInput.start ∉ post) :
    (syncerStep syncerInit SyncerInput.start).2 = [SyncerOutput.publishGreet] ∧
    (syncerStep (syncerRun syncerInit pre).1 SyncerInput.greetRetryTick).2 =
      [SyncerOutput.publishGreet] ∧
    SyncerOutput.publishGreet ∉
      (syncerRun (syncerStep (syncerRun syncerInit pre).1 supply).1 post).2 := by
  refine ⟨rfl, ?_, ?_⟩
  · have h := syncerRun_keeps_awaiting pre syncerInit rfl hpre
    simp [syncerStep, h]
  · exact syncerRun_no_greet_when_intervaled post _
      (syncerStep_supply_intervaled _ supply hsupply) hpost

/-- Inputs before the interval is learned, for the C9 witness. -/
def w9Pre : List SyncerInput := [SyncerInput.start, SyncerInput.greetRetryTick]

/-- Inputs after the interval is learned, for the C9 witness. -/
def w9Post : List SyncerInput :=
  [SyncerInput.greetRetryTick, SyncerInput.emitTick, SyncerInput.syncTick]

/-- C9 witness: the greet protocol at a concrete run — start and one
retry greet before a greet reply carrying interval 1 arrives, then a
retry tick, an emit tick and a sync tick with no further greets. -/
theorem syncer_greets_until_interval_learned_witness :
    (∀ i ∈ w9Pre, suppliesInterval i = false) ∧
    suppliesInterval (SyncerInput.greetReply 1 3) = true ∧
    SyncerInput.start ∉ w9Post ∧
    ((syncerStep syncerInit SyncerInput.start).2 = [SyncerOutput.publishGreet] ∧
      (syncerStep (syncerRun syncerInit w9Pre).1 SyncerInput.greetRetryTick).2 =
        [SyncerOutput.publishGreet] ∧
      SyncerOutput.publishGreet ∉
        (syncerRun (syncerStep (syncerRun syncerInit w9Pre).1
          (SyncerInput.greetReply 1 3)).1 w9Post).2) :=
  have h1 : ∀ i ∈ w9Pre, suppliesInterval i = false := by decide
  have h2 : suppliesInterval (SyncerInput.greetReply 1 3) = true := by decide
  have h3 : SyncerInput.start ∉ w9Post := by decide
  ⟨h1, h2, h3,
    syncer_greets_until_interval_learned w9Pre w9Post (SyncerInput.greetReply 1 3) h1 h2 h3⟩

/-- C10: NewRouteEmitterConfig returns the defaults overlaid with the
fields present in the JSON document when opening and decoding succeed;
on a file-open error or a JSON-decode error it returns the zero-value
config — which differs from the defaults — together with the error. -/
theorem newRouteEmitterConfig_defaults_and_errors (cfgEnv : ConfigEnv) (path : String) :
    (∀ err, cfgEnv.osOpen path = FileOpenResult.openError err →
      NewRouteEmitterConfig cfgEnv path = (zeroRouteEmitterConfig, some err)) ∧
    (∀ contents err, cfgEnv.osOpen path = FileOpenResult.opened contents →
      cfgEnv.jsonDecode contents = Except.error err →
      NewRouteEmitterConfig cfgEnv path = (zeroRouteEmitterConfig, some err)) ∧
    (∀ contents overlay, cfgEnv.osOpen path = FileOpenResult.opened contents →
      cfgEnv.jsonDecode contents = Except.ok overlay →
      NewRouteEmitterConfig cfgEnv path = (applyOverlay DefaultRouteEmitterConfig overlay, none)) ∧
    zeroRouteEmitterConfig ≠ DefaultRouteEmitterConfig := by
  refine ⟨?_, ?_, ?_, by decide⟩
  · intro err h
    simp [NewRouteEmitterConfig, h]
  · intro contents err h1 h2
    simp [NewRouteEmitterConfig, h1, h2]
  · intro contents overlay h1 h2
    simp [NewRouteEmitterConfig, h1, h2]

/-- A config environment whose file open always fails, for the C10
witness. -/
def cfgEnvOpenFail : ConfigEnv :=
  { osOpen := fun _ => FileOpenResult.openError "no such file"
    jsonDecode := fun _ => Except.error "unused" }

/-- C10 witness: on a concrete failing open, the loader returns the
zero-value config with the error, not the defaults. -/
theorem newRouteEmitterConfig_defaults_and_errors_witness :
    cfgEnvOpenFail.osOpen "/etc/route-emitter.json" = FileOpenResult.openError "no such file" ∧
    NewRouteEmitterConfig cfgEnvOpenFail "/etc/route-emitter.json" =
      (zeroRouteEmitterConfig, some "no such file") :=
  ⟨rfl, (newRouteEmitterConfig_defaults_and_errors cfgEnvOpenFail "/etc/route-emitter.json").1
    "no such file" rfl⟩

end RouteEmitter
